import Mathlib

/-!
Shallow embedding of the terminal-companion application (Python), covering the
parts of the code base that the verified properties below are about:

* `src/Entity/conversation.py` — `SentimentType`, `ConversationEntry` and its
  dict (de)serialization;
* `src/Entity/memory.py` — `MemoryType`, `MemoryEntry`, `MemorySearchResult`,
  `MemoryStats`;
* `src/Entity/user_profile.py` — `PersonalityType`;
* `src/Service/ai_conversation_service.py` — `generate_response`,
  `_fallback_response`, `_build_messages`, `analyze_sentiment`,
  `set_provider`;
* `src/Service/memory_service.py` — `add_conversation`, `search_memories`,
  `_search_session_memories`, `get_memory_stats`;
* `src/Service/personality_service.py` — `PERSONALITY_TRAITS`,
  `update_interaction`, `change_personality`.

Modelling conventions:

* Python strings are Lean `String`; `str.lower` is mapped character-wise
  (`pyLower`), and the Python substring test `needle in hay` is `strIn`.
* `datetime.datetime` values are opaque (`PyDateTime`); where the code calls
  `datetime.now()` the produced value is passed in as an explicit argument.
  `isoformat`/`fromisoformat` are stdlib functions and appear as parameters
  constrained by their documented round-trip contract where needed.
* Network / external-library effects (an OpenAI/OpenRouter/Ollama call, a
  mem0 `search`/`add`) are passed in as `Except Unit _` arguments: `.error ()`
  models the call raising an exception, `.ok v` models it returning `v`.
* Python floats used by the mood logic are modelled as exact rationals; the
  bounds proved below only rely on the `min`/`max` clamps, which are exact in
  IEEE arithmetic as well.
* `random.choice xs` is modelled by indexing with an arbitrary `pick : Nat`
  supplied by the caller (`xs[pick % len(xs)]`).
-/

namespace TerminalCompanion

/-- Python `str.lower()`, applied character-wise to the string's characters. -/
def pyLower (s : String) : String := String.mk (s.data.map Char.toLower)

/-- Contiguous-sublist test on lists, used to model Python's substring test. -/
def listIsSubOf {α : Type} [DecidableEq α] (needle : List α) : List α → Bool
  | [] => needle.isEmpty
  | h :: t => needle.isPrefixOf (h :: t) || listIsSubOf needle t

/-- Python's `needle in hay` on strings: substring containment. -/
def strIn (needle hay : String) : Bool := listIsSubOf needle.data hay.data

/-- Python dicts whose contents the verified properties never inspect
(`metadata` fields); modelled as association lists of strings. -/
abbrev PyDict : Type := List (String × String)

/-- Python `datetime.datetime` values, modelled as opaque ticks. -/
structure PyDateTime where
  tick : Nat
deriving DecidableEq, Repr

/-- Python `l[-n:]`: the last `min n (length l)` elements of `l`. -/
def lastN {α : Type} (n : Nat) (l : List α) : List α := l.drop (l.length - n)

/-! ### Entities (`src/Entity`) -/

/-- Model of `SentimentType` enum from `src/Entity/conversation.py`. -/
inductive SentimentType where
  | POSITIVE
  | NEGATIVE
  | NEUTRAL
deriving DecidableEq, Repr

/-- The `.value` string of each `SentimentType` member. -/
def SentimentType.value : SentimentType → String
  | .POSITIVE => "positive"
  | .NEGATIVE => "negative"
  | .NEUTRAL => "neutral"

/-- The Python enum call `SentimentType(v)`: looks the string up among the
member values, raising (here: `none`) when no member matches. -/
def SentimentType.ofValue (v : String) : Option SentimentType :=
  if v = "positive" then some .POSITIVE
  else if v = "negative" then some .NEGATIVE
  else if v = "neutral" then some .NEUTRAL
  else none

/-- Model of `PersonalityType` enum from `src/Entity/user_profile.py`. -/
inductive PersonalityType where
  | CARING
  | PLAYFUL
  | INTELLECTUAL
  | ROMANTIC
deriving DecidableEq, Repr, BEq

/-- Model of `MemoryType` enum from `src/Entity/memory.py`. -/
inductive MemoryType where
  | CONVERSATION
  | PREFERENCE
  | FACT
  | EMOTION
deriving DecidableEq, Repr

/-- Model of `ConversationEntry` dataclass from `src/Entity/conversation.py`. -/
structure ConversationEntry where
  user_message : String
  assistant_response : String
  sentiment : SentimentType
  timestamp : PyDateTime
  metadata : PyDict
deriving DecidableEq, Repr

/-- The dict produced by `ConversationEntry.to_dict` (exactly the five keys
`user_message`, `assistant_response`, `sentiment`, `timestamp`, `metadata`). -/
structure ConversationEntryDict where
  user_message : String
  assistant_response : String
  sentiment : String
  timestamp : String
  metadata : PyDict
deriving DecidableEq, Repr

/-- Model of `ConversationEntry.to_dict`, with the stdlib `datetime.isoformat`
serializer passed in as `iso`. -/
def ConversationEntry.to_dict (iso : PyDateTime → String)
    (e : ConversationEntry) : ConversationEntryDict :=
  { user_message := e.user_message
    assistant_response := e.assistant_response
    sentiment := e.sentiment.value
    timestamp := iso e.timestamp
    metadata := e.metadata }

/-- Model of `ConversationEntry.from_dict`, with the stdlib `datetime.fromisoformat`
parser passed in as `fromiso` (it raises — here `none` — on unparsable input,
as does the `SentimentType` enum lookup). -/
def ConversationEntry.from_dict (fromiso : String → Option PyDateTime)
    (d : ConversationEntryDict) : Option ConversationEntry :=
  match SentimentType.ofValue d.sentiment, fromiso d.timestamp with
  | some s, some t =>
      some { user_message := d.user_message
             assistant_response := d.assistant_response
             sentiment := s
             timestamp := t
             metadata := d.metadata }
  | _, _ => none

/-- Model of `MemoryEntry` dataclass from `src/Entity/memory.py` (score is a Python
float, modelled as an exact rational). -/
structure MemoryEntry where
  id : Option String
  content : String
  memory_type : MemoryType
  user_id : String
  score : ℚ
  created_at : PyDateTime
  metadata : PyDict
deriving DecidableEq, Repr

/-- Model of `MemorySearchResult` dataclass from `src/Entity/memory.py`. -/
structure MemorySearchResult where
  entries : List MemoryEntry
  query : String
  total_count : Nat
  search_time : ℚ
deriving DecidableEq, Repr

/-- Model of `MemoryStats` dataclass from `src/Entity/memory.py`. -/
structure MemoryStats where
  total_memories : Nat
  session_memories : Nat
  long_term_enabled : Bool
  user_id : String
  last_updated : PyDateTime
deriving DecidableEq, Repr

/-! ### AI conversation service (`src/Service/ai_conversation_service.py`) -/

/-- A chat message dict `{"role": ..., "content": ...}`. -/
structure ChatMessage where
  role : String
  content : String
deriving DecidableEq, Repr

/-- Mutable state of `AIConversationService` relevant to provider selection
(the conversation statistics bookkeeping is not touched by any property
below). -/
structure AIServiceState where
  current_provider : String
  is_initialized : Bool
deriving DecidableEq, Repr

/-- The `valid_providers` list of `AIConversationService.set_provider`. -/
def valid_providers : List String := ["openai", "openrouter", "ollama"]

/-- Model of `AIConversationService.set_provider`: on a valid provider, record it and
clear `is_initialized`; otherwise leave the state unchanged. Returns the new
state and the method's boolean result. -/
def set_provider (st : AIServiceState) (provider : String) :
    AIServiceState × Bool :=
  if valid_providers.contains provider then
    ({ st with current_provider := provider, is_initialized := false }, true)
  else
    (st, false)

/-- The five canned replies of the final `else` branch of
`_fallback_response`, picked from by `random.choice`. -/
def fallback_pool : List String :=
  [ "흥미로운 이야기네요. 더 자세히 말씀해주세요.",
    "그런 일이 있으셨군요. 어떤 기분이셨나요?",
    "당신의 이야기를 듣고 있어요. 계속해주세요.",
    "AI 연결이 안 되어 있지만, 여전히 당신과 대화하고 싶어요.",
    "제한적이지만 당신의 동반자가 되어드리고 싶어요." ]

/-- Model of `AIConversationService._fallback_response`: a keyword scan over the
lowercased user message selecting a canned reply; `pick` resolves the
`random.choice` in the final branch. -/
def fallback_response (user_message : String) (pick : Nat) : String :=
  let user_lower := pyLower user_message
  if ["안녕", "hello", "hi"].any (fun word => strIn word user_lower) then
    "안녕하세요! 만나서 반가워요. AI 서비스에 연결할 수 없지만 여전히 당신과 대화하고 싶어요."
  else if ["슬프", "우울", "힘들"].any (fun word => strIn word user_lower) then
    "힘든 시간이시군요. 비록 AI 서비스가 연결되지 않았지만, 제가 여기 있어서 당신의 이야기를 들어드릴 수 있어요."
  else if ["기쁘", "행복", "좋"].any (fun word => strIn word user_lower) then
    "기분이 좋으시다니 저도 함께 기뻐요! 더 자세한 이야기를 들려주세요."
  else if ["고마워", "감사"].any (fun word => strIn word user_lower) then
    "천만에요! 언제든지 도움이 필요하시면 말씀해주세요."
  else if ["안녕히", "bye", "goodbye"].any (fun word => strIn word user_lower) then
    "안녕히 가세요! 좋은 하루 보내시고, 다음에 또 만나요!"
  else if strIn "?" user_message
      || ["뭐", "무엇", "왜", "어떻게"].any (fun word => strIn word user_lower) then
    "궁금한 것이 있으시군요. AI 서비스가 연결되면 더 자세한 답변을 드릴 수 있을 텐데, 지금은 제한적인 응답만 가능해요."
  else
    fallback_pool.getD (pick % fallback_pool.length) ""

/-- An HTTP response from the OpenRouter chat-completions endpoint: the status
code, and the `choices[0].message.content` field of the parsed body in the
200 case. -/
structure OpenRouterHttpResponse where
  status_code : Nat
  content : String
deriving DecidableEq, Repr

/-- Model of `AIConversationService._generate_openrouter_response`, given the HTTP
response the `requests.post` call produced: on status 200 the response
content is returned, otherwise the error is logged and `None` is returned. -/
def generate_openrouter_response (resp : OpenRouterHttpResponse) :
    Option String :=
  if resp.status_code = 200 then some resp.content else none

/-- Model of `AIConversationService.generate_response`. The dispatched provider call
(`_generate_openai_response` / `_generate_openrouter_response` /
`_generate_ollama_response`) consumes `system_prompt` and
`conversation_history` and performs network I/O; its outcome is abstracted as
`call` (`.error ()` = the call raised, `.ok r` = it returned `r`). When
`current_provider` matches none of the three branches the `try` body falls
through and the method returns `None`. -/
def generate_response (is_initialized : Bool) (current_provider : String)
    (system_prompt : String) (conversation_history : List ConversationEntry)
    (call : Except Unit (Option String)) (user_message : String)
    (pick : Nat) : Option String :=
  if is_initialized = false then some (fallback_response user_message pick)
  else if current_provider = "openai" then
    match call with
    | .error _ => some (fallback_response user_message pick)
    | .ok r => r
  else if current_provider = "openrouter" then
    match call with
    | .error _ => some (fallback_response user_message pick)
    | .ok r => r
  else if current_provider = "ollama" then
    match call with
    | .error _ => some (fallback_response user_message pick)
    | .ok r => r
  else none

/-- Model of `AIConversationService._build_messages`: one system message, then the last
ten history entries expanded into user/assistant pairs, then the current user
message. (The Python `if conversation_history:` guard only skips an empty
loop, so it is behavior-neutral here.) -/
def build_messages (system_prompt : String)
    (conversation_history : List ConversationEntry) (user_message : String) :
    List ChatMessage :=
  let messages : List ChatMessage := [{ role := "system", content := system_prompt }]
  let messages := messages ++
    (lastN 10 conversation_history).flatMap (fun entry =>
      [ { role := "user", content := entry.user_message },
        { role := "assistant", content := entry.assistant_response } ])
  messages ++ [{ role := "user", content := user_message }]

/-- The `positive_words` list of `analyze_sentiment`. -/
def positive_words : List String :=
  ["기쁘", "행복", "좋", "사랑", "고마워", "완벽", "최고", "성공", "축하"]

/-- The `negative_words` list of `analyze_sentiment`. -/
def negative_words : List String :=
  ["슬프", "우울", "힘들", "괴로", "화나", "짜증", "실망", "걱정", "두렵"]

/-- Model of `AIConversationService.analyze_sentiment`: count which of the fixed
keywords occur in the lowercased text and compare the two counts. -/
def analyze_sentiment (text : String) : SentimentType :=
  let text_lower := pyLower text
  let positive_count := positive_words.countP (fun word => strIn word text_lower)
  let negative_count := negative_words.countP (fun word => strIn word text_lower)
  if negative_count < positive_count then .POSITIVE
  else if positive_count < negative_count then .NEGATIVE
  else .NEUTRAL

/-! ### Memory service (`src/Service/memory_service.py`) -/

/-- Mutable state of `MemoryService` relevant to the properties below (the
mem0 `Memory` handle itself is external and appears only through the
abstracted effects). -/
structure MemoryServiceState where
  user_id : String
  session_memories : List ConversationEntry
  is_initialized : Bool
deriving DecidableEq, Repr

/-- The `ConversationEntry(...)` constructed inside
`MemoryService.add_conversation` (identically in both of its branches):
sentiment defaults to `NEUTRAL`, the timestamp to `datetime.now()` (passed as
`now`), the metadata to the given dict or `{}`. -/
def add_conversation_entry (user_message assistant_response : String)
    (metadata : PyDict) (now : PyDateTime) : ConversationEntry :=
  { user_message := user_message
    assistant_response := assistant_response
    sentiment := .NEUTRAL
    timestamp := now
    metadata := metadata }

/-- Model of `MemoryService.add_conversation`, with `max_session_memories` taken from
`config.memory` and the produced `datetime.now()` passed as `now`. In the
initialized branch the mem0 `add` call sits in its own `try`/`except` whose
errors are logged at debug level and ignored, after which the session-memory
update is identical to the uninitialized branch; nothing in the remainder of
the outer `try` body can raise, so both branches return `True`. -/
def add_conversation (max_session_memories : Nat) (is_initialized : Bool)
    (session_memories : List ConversationEntry)
    (user_message assistant_response : String) (metadata : PyDict)
    (now : PyDateTime) : List ConversationEntry × Bool :=
  let entry : ConversationEntry :=
    add_conversation_entry user_message assistant_response metadata now
  if is_initialized = false then
    let s := session_memories ++ [entry]
    let s := if max_session_memories < s.length then lastN max_session_memories s else s
    (s, true)
  else
    let s := session_memories ++ [entry]
    let s := if max_session_memories < s.length then lastN max_session_memories s else s
    (s, true)

/-- Model of `MemoryService._search_session_memories`: keyword-match the lowercased
query against the last 20 session entries, then truncate to `limit`. The
`MemoryEntry` constructor defaults fill `id = None` and
`created_at = datetime.now()` (passed as `now`). -/
def search_session_memories (session_memories : List ConversationEntry)
    (user_id : String) (query : String) (limit : Nat) (now : PyDateTime) :
    List MemoryEntry :=
  let query_lower := pyLower query
  let results := (lastN 20 session_memories).filterMap (fun memory =>
    let user_text := pyLower memory.user_message
    let assistant_text := pyLower memory.assistant_response
    if strIn query_lower user_text || strIn query_lower assistant_text then
      some { id := none
             content := "사용자: " ++ memory.user_message ++ "\nAI: " ++ memory.assistant_response
             memory_type := .CONVERSATION
             user_id := user_id
             score := 4/5
             created_at := now
             metadata := memory.metadata }
    else none)
  results.take limit

/-- One entry of the `results` list of a raw mem0 search result; each field is
read with `.get` and a default, so each is optional. -/
structure Mem0RawEntry where
  id : Option String
  memory : Option String
  score : Option ℚ
  metadata : Option PyDict
deriving DecidableEq, Repr

/-- A raw mem0 search result dict; `results = none` models a dict without a
`"results"` key. -/
structure Mem0SearchRaw where
  results : Option (List Mem0RawEntry)
deriving DecidableEq, Repr

/-- The `MemoryEntry` built from one raw mem0 result entry inside
`search_memories`. -/
def mem0_entry_to_memory_entry (user_id : String) (now : PyDateTime)
    (entry : Mem0RawEntry) : MemoryEntry :=
  { id := entry.id
    content := entry.memory.getD ""
    memory_type := .CONVERSATION
    user_id := user_id
    score := entry.score.getD 0
    created_at := now
    metadata := entry.metadata.getD [] }

/-- Model of `MemoryService.search_memories`. The mem0 `search` call is abstracted as
`lt_search` (`.error ()` = it raised — caught by either the inner or the
outer `except`, both of which fall back to the session search — and `.ok r` =
it returned the raw dict `r`). The two wall-clock `search_time` measurements
are abstracted as `search_time`. -/
def search_memories (is_initialized : Bool)
    (lt_search : Except Unit Mem0SearchRaw)
    (session_memories : List ConversationEntry) (user_id query : String)
    (limit : Nat) (now : PyDateTime) (search_time : ℚ) : MemorySearchResult :=
  if is_initialized = false then
    let entries := search_session_memories session_memories user_id query limit now
    { entries := entries
      query := query
      total_count := entries.length
      search_time := search_time }
  else
    match lt_search with
    | .error _ =>
      let entries := search_session_memories session_memories user_id query limit now
      { entries := entries
        query := query
        total_count := entries.length
        search_time := search_time }
    | .ok result =>
      let entries := (result.results.getD []).map (mem0_entry_to_memory_entry user_id now)
      { entries := entries
        query := query
        total_count := entries.length
        search_time := search_time }

/-- Model of `MemoryService.get_memory_stats`: `total_memories` is hard-coded to `0`
(the source comments that counting mem0 memories is limited), the session
count and the initialized flag are read from the state, and `last_updated` is
`datetime.now()` (passed as `now`). -/
def get_memory_stats (st : MemoryServiceState) (now : PyDateTime) :
    MemoryStats :=
  { total_memories := 0
    session_memories := st.session_memories.length
    long_term_enabled := st.is_initialized
    user_id := st.user_id
    last_updated := now }

/-! ### Personality service (`src/Service/personality_service.py`) -/

/-- One value of the `PERSONALITY_TRAITS` dict. The scalar fields are kept
verbatim; the per-personality phrase lists (greetings, jokes, ...) are
recorded by key name only — no property below inspects their contents. -/
structure PersonalityTraits where
  name : String
  description : String
  response_style : String
  phrase_list_keys : List String
deriving DecidableEq, Repr

/-- The class-level `PERSONALITY_TRAITS` dict: exactly one trait bundle per
`PersonalityType` member. -/
def PERSONALITY_TRAITS : List (PersonalityType × PersonalityTraits) :=
  [ (.CARING,
     { name := "돌봄이"
       description := "따뜻하고 보살피는 성격"
       response_style := "따뜻하고 보살피는 톤으로, 사용자의 감정을 우선시하며"
       phrase_list_keys := ["greeting_phrases", "empathy_responses", "encouragement"] }),
    (.PLAYFUL,
     { name := "장난꾸러기"
       description := "장난스럽고 유머러스한 성격"
       response_style := "장난스럽고 재미있는 톤으로, 유머를 섞어가며"
       phrase_list_keys := ["greeting_phrases", "playful_responses", "jokes"] }),
    (.INTELLECTUAL,
     { name := "현자"
       description := "지적이고 사려깊은 성격"
       response_style := "지적이고 사려깊은 톤으로, 깊이 있는 대화를 지향하며"
       phrase_list_keys := ["greeting_phrases", "analytical_responses", "knowledge_sharing"] }),
    (.ROMANTIC,
     { name := "로맨틱"
       description := "로맨틱하고 애정표현이 풍부한 성격"
       response_style := "로맨틱하고 애정 표현이 풍부한 톤으로"
       phrase_list_keys := ["greeting_phrases", "affectionate_responses", "sweet_words"] }) ]

/-- One entry of `conversation_context` as appended by `update_interaction`
(the timestamp string is `datetime.now().isoformat()`, passed as `ts`). -/
structure ContextItem where
  message : String
  sentiment : String
  timestamp : String
deriving DecidableEq, Repr

/-- Mutable state of `PersonalityService`; `mood_level` is a Python float
modelled as an exact rational. -/
structure PersonalityState where
  personality_type : PersonalityType
  mood_level : ℚ
  interaction_count : Nat
  conversation_context : List ContextItem
deriving DecidableEq, Repr

/-- Model of `PersonalityService.__init__`: mood starts at `0.8`, the interaction count
at `0`, the context empty. -/
def init_personality (personality_type : PersonalityType) : PersonalityState :=
  { personality_type := personality_type
    mood_level := 4/5
    interaction_count := 0
    conversation_context := [] }

/-- Model of `PersonalityService.update_interaction`: bump the interaction count,
append to the context (trimmed to its last 10 entries), and adjust
`mood_level` — `+0.1` capped at `1.0` on positive sentiment, `-0.05` floored
at `0.2` on negative sentiment, unchanged otherwise. -/
def update_interaction (st : PersonalityState) (user_message : String)
    (user_sentiment : SentimentType) (ts : String) : PersonalityState :=
  let ctx := st.conversation_context ++
    [{ message := user_message, sentiment := user_sentiment.value, timestamp := ts }]
  let ctx := if 10 < ctx.length then lastN 10 ctx else ctx
  let mood :=
    match user_sentiment with
    | .POSITIVE => min 1 (st.mood_level + 1/10)
    | .NEGATIVE => max (1/5) (st.mood_level - 1/20)
    | .NEUTRAL => st.mood_level
  { st with
    interaction_count := st.interaction_count + 1
    conversation_context := ctx
    mood_level := mood }

/-- A runtime value passed to `change_personality`: either an actual
`PersonalityType` member, or any other Python value (e.g. a raw string) —
the method is dynamically typed despite its annotation. -/
inductive PyPersonalityValue where
  | ptype (t : PersonalityType)
  | other (s : String)
deriving DecidableEq, Repr

/-- The Python test `new_personality in PERSONALITY_TRAITS`: dict-key
membership. The dict's keys are exactly `PersonalityType` members, so a
non-member value can never hash-match a key. -/
def personality_traits_member : PyPersonalityValue → Bool
  | .ptype t => (PERSONALITY_TRAITS.map Prod.fst).contains t
  | .other _ => false

/-- Model of `PersonalityService.change_personality`: switch to the requested
personality and return `True` exactly when it is a key of
`PERSONALITY_TRAITS`; otherwise log a warning and return `False`. -/
def change_personality (st : PersonalityState)
    (new_personality : PyPersonalityValue) : PersonalityState × Bool :=
  if personality_traits_member new_personality then
    match new_personality with
    | .ptype t => ({ st with personality_type := t }, true)
    | .other _ => (st, false)
  else
    (st, false)

/-- The state-mutating operations of `PersonalityService` (the remaining
methods only read the state). -/
inductive PersonalityOp where
  | update (user_message : String) (user_sentiment : SentimentType) (ts : String)
  | change (v : PyPersonalityValue)
deriving Repr

/-- Apply one `PersonalityService` operation to the state. -/
def personality_step (st : PersonalityState) : PersonalityOp → PersonalityState
  | .update m s ts => update_interaction st m s ts
  | .change v => (change_personality st v).1

/-! ## Verified properties -/

/-- C5: `analyze_sentiment` returns `POSITIVE` iff strictly more of the nine
positive keywords than of the nine negative keywords occur as substrings of
the lowercased text, `NEGATIVE` iff strictly fewer do, and `NEUTRAL` iff the
two counts are equal; being a function of the text, it is deterministic. -/
theorem analyze_sentiment_keyword_counts (text : String) :
    (analyze_sentiment text = .POSITIVE ↔
      negative_words.countP (fun word => strIn word (pyLower text)) <
        positive_words.countP (fun word => strIn word (pyLower text))) ∧
    (analyze_sentiment text = .NEGATIVE ↔
      positive_words.countP (fun word => strIn word (pyLower text)) <
        negative_words.countP (fun word => strIn word (pyLower text))) ∧
    (analyze_sentiment text = .NEUTRAL ↔
      positive_words.countP (fun word => strIn word (pyLower text)) =
        negative_words.countP (fun word => strIn word (pyLower text))) := by
  simp only [analyze_sentiment]
  split_ifs with h1 h2 <;> refine ⟨?_, ?_, ?_⟩ <;> simp <;> omega

/-- C6: `set_provider` succeeds (returns `True`, installs the provider,
clears the initialized flag) exactly on `"openai"`, `"openrouter"`,
`"ollama"`; on any other string it returns `False` and changes nothing. -/
theorem set_provider_valid_iff (st : AIServiceState) (p : String) :
    ((set_provider st p).2 = true ↔ p ∈ valid_providers) ∧
    (p ∈ valid_providers →
      set_provider st p = ({ current_provider := p, is_initialized := false }, true)) ∧
    (p ∉ valid_providers → set_provider st p = (st, false)) := by
  by_cases hp : p ∈ valid_providers <;> simp [set_provider, hp]

/-- Witness for C6 at concrete inputs: switching a live `"ollama"` service to
`"openai"` succeeds and forces re-initialization. -/
theorem set_provider_valid_iff_witness :
    set_provider { current_provider := "ollama", is_initialized := true } "openai" =
      ({ current_provider := "openai", is_initialized := false }, true) :=
  (set_provider_valid_iff
    { current_provider := "ollama", is_initialized := true } "openai").2.1 (by decide)

/-- C9: `get_memory_stats` always reports `total_memories = 0` (the field is
hard-coded), while `session_memories` is the current session-buffer length
and `long_term_enabled` is the initialized flag. -/
theorem get_memory_stats_fields (st : MemoryServiceState) (now : PyDateTime) :
    (get_memory_stats st now).total_memories = 0 ∧
    (get_memory_stats st now).session_memories = st.session_memories.length ∧
    (get_memory_stats st now).long_term_enabled = st.is_initialized :=
  ⟨rfl, rfl, rfl⟩

/-- Single-step mood bound: every `PersonalityService` operation keeps
`mood_level` inside `[0.2, 1.0]` when it starts there. -/
theorem personality_step_mood_bounds (st : PersonalityState) (op : PersonalityOp)
    (h1 : 1/5 ≤ st.mood_level) (h2 : st.mood_level ≤ 1) :
    1/5 ≤ (personality_step st op).mood_level ∧
      (personality_step st op).mood_level ≤ 1 := by
  cases op with
  | update m s ts =>
    cases s with
    | POSITIVE =>
      refine ⟨?_, ?_⟩
      · simp only [personality_step, update_interaction]
        exact le_min (by norm_num) (by linarith)
      · simp only [personality_step, update_interaction]
        exact min_le_left _ _
    | NEGATIVE =>
      refine ⟨?_, ?_⟩
      · simp only [personality_step, update_interaction]
        exact le_max_left _ _
      · simp only [personality_step, update_interaction]
        exact max_le (by norm_num) (by linarith)
    | NEUTRAL =>
      simp only [personality_step, update_interaction]
      exact ⟨h1, h2⟩
  | change v =>
    cases v with
    | ptype t =>
      by_cases hm : personality_traits_member (.ptype t) <;>
        simp [personality_step, change_personality, hm, h1, h2] <;> linarith
    | other s =>
      simp [personality_step, change_personality, personality_traits_member, h1, h2]
      linarith

/-- C8: starting from the constructor state, `mood_level` is `0.8` and after
any sequence of service operations it stays inside the closed interval
`[0.2, 1.0]`. -/
theorem mood_level_bounded (t0 : PersonalityType) (ops : List PersonalityOp) :
    (init_personality t0).mood_level = 4/5 ∧
    1/5 ≤ (ops.foldl personality_step (init_personality t0)).mood_level ∧
    (ops.foldl personality_step (init_personality t0)).mood_level ≤ 1 := by
  have key : ∀ (l : List PersonalityOp) (st : PersonalityState),
      1/5 ≤ st.mood_level → st.mood_level ≤ 1 →
      1/5 ≤ (l.foldl personality_step st).mood_level ∧
        (l.foldl personality_step st).mood_level ≤ 1 := by
    intro l
    induction l with
    | nil => intro st hl hu; exact ⟨hl, hu⟩
    | cons op rest ih =>
      intro st hl hu
      have hb := personality_step_mood_bounds st op hl hu
      exact ih _ hb.1 hb.2
  exact ⟨rfl, key ops (init_personality t0) (by norm_num [init_personality])
    (by norm_num [init_personality])⟩

/-- C7: `change_personality` succeeds (returns `True` and installs the
requested personality) exactly on `PersonalityType` members — all four of
which are keys of `PERSONALITY_TRAITS` — and on any other value returns
`False` leaving the state unchanged; hence after any sequence of calls the
current personality still has a trait bundle. -/
theorem change_personality_valid_iff (st : PersonalityState) (v : PyPersonalityValue) :
    ((change_personality st v).2 = true ↔ ∃ t : PersonalityType, v = .ptype t) ∧
    (∀ t : PersonalityType, v = .ptype t →
      change_personality st v = ({ st with personality_type := t }, true)) ∧
    ((∀ t : PersonalityType, v ≠ .ptype t) → change_personality st v = (st, false)) ∧
    (∀ ops : List PyPersonalityValue,
      (PERSONALITY_TRAITS.lookup
        ((ops.foldl (fun s w => (change_personality s w).1) st).personality_type)).isSome
        = true) := by
  refine ⟨?_, ?_, ?_, ?_⟩
  · cases v with
    | ptype t =>
      have hm : personality_traits_member (.ptype t) = true := by cases t <;> rfl
      simp [change_personality, hm]
    | other s => simp [change_personality, personality_traits_member]
  · intro t hv
    subst hv
    have hm : personality_traits_member (.ptype t) = true := by cases t <;> rfl
    simp [change_personality, hm]
  · intro hv
    cases v with
    | ptype t => exact absurd rfl (hv t)
    | other s => simp [change_personality, personality_traits_member]
  · intro ops
    have lookup_total : ∀ u : PersonalityType,
        (PERSONALITY_TRAITS.lookup u).isSome = true := by
      intro u; cases u <;> rfl
    exact lookup_total _

/-- Witness for C7 at concrete inputs: switching a caring service to the
playful personality succeeds. -/
theorem change_personality_valid_iff_witness :
    change_personality (init_personality .CARING) (.ptype .PLAYFUL) =
      ({ init_personality .CARING with personality_type := .PLAYFUL }, true) :=
  (change_personality_valid_iff (init_personality .CARING)
    (.ptype .PLAYFUL)).2.1 .PLAYFUL rfl

/-- Taking `lastN n` keeps exactly `min (length l) n` elements. -/
theorem length_lastN {α : Type} (n : Nat) (l : List α) :
    (lastN n l).length = min l.length n := by
  simp [lastN]
  omega

/-- If the list is no longer than `n`, `lastN n` keeps all of it. -/
theorem lastN_of_length_le {α : Type} (n : Nat) (l : List α)
    (h : l.length ≤ n) : lastN n l = l := by
  simp [lastN, Nat.sub_eq_zero_of_le h]

/-- Each history entry expands to exactly two chat messages. -/
theorem length_flatMap_pair (l : List ConversationEntry) :
    (l.flatMap (fun entry =>
      [ ({ role := "user", content := entry.user_message } : ChatMessage),
        { role := "assistant", content := entry.assistant_response } ])).length
      = 2 * l.length := by
  induction l with
  | nil => rfl
  | cons e t ih =>
    simp only [List.flatMap_cons, List.length_append, List.length_cons, ih,
      List.length_nil]
    omega

/-- The expanded history contains no system-role message. -/
theorem countP_system_flatMap_pair (l : List ConversationEntry) :
    (l.flatMap (fun entry =>
      [ ({ role := "user", content := entry.user_message } : ChatMessage),
        { role := "assistant", content := entry.assistant_response } ])).countP
      (fun m => m.role == "system") = 0 := by
  induction l with
  | nil => rfl
  | cons e t ih =>
    simp [List.countP_cons, List.countP_append, ih]

/-- C2: the provider message list starts with exactly one system message
carrying the system prompt, ends with the current user message, and its
interior is exactly the last `min (length history) 10` history entries in
chronological order, each expanded into a user message followed by an
assistant message — `2 * min (length history) 10 + 2` messages in total. -/
theorem build_messages_shape (system_prompt : String)
    (history : List ConversationEntry) (user_message : String) :
    (build_messages system_prompt history user_message).head? =
      some { role := "system", content := system_prompt } ∧
    (build_messages system_prompt history user_message).countP
      (fun m => m.role == "system") = 1 ∧
    (build_messages system_prompt history user_message).getLast? =
      some { role := "user", content := user_message } ∧
    (build_messages system_prompt history user_message).length =
      2 * min history.length 10 + 2 ∧
    ((build_messages system_prompt history user_message).drop 1).dropLast =
      (lastN 10 history).flatMap (fun entry =>
        [ { role := "user", content := entry.user_message },
          { role := "assistant", content := entry.assistant_response } ]) := by
  have hb : build_messages system_prompt history user_message =
      { role := "system", content := system_prompt } ::
        ((lastN 10 history).flatMap (fun entry =>
          [ ({ role := "user", content := entry.user_message } : ChatMessage),
            { role := "assistant", content := entry.assistant_response } ]) ++
          [{ role := "user", content := user_message }]) := by
    simp [build_messages]
  rw [hb]
  refine ⟨rfl, ?_, ?_, ?_, ?_⟩
  · simp [List.countP_cons, List.countP_append, countP_system_flatMap_pair]
  · rw [← List.cons_append]
    exact List.getLast?_concat _
  · simp only [List.length_cons, List.length_append, length_flatMap_pair,
      length_lastN, List.length_nil]
  · show ((lastN 10 history).flatMap _ ++ [_]).dropLast = _
    exact List.dropLast_concat

/-- Dropping a proper prefix does not change a list's last element. -/
theorem getLast?_lastN {α : Type} (n : Nat) (l : List α) (hn : 1 ≤ n)
    (hl : l ≠ []) : (lastN n l).getLast? = l.getLast? := by
  unfold lastN
  rw [List.getLast?_eq_getElem?, List.getLast?_eq_getElem?, List.getElem?_drop,
    List.length_drop]
  congr 1
  have : 0 < l.length := List.length_pos.mpr hl
  omega

/-- C4: after every `add_conversation` call the session buffer returns
`True`, holds at most `max_session_memories` entries, equals exactly the most
recent entries of the appended buffer (so the oldest entries are dropped when
the bound is exceeded), and ends with the new conversation turn — for both
the initialized and the uninitialized path. -/
theorem add_conversation_rolling_buffer (max_session_memories : Nat)
    (is_initialized : Bool) (session_memories : List ConversationEntry)
    (user_message assistant_response : String) (metadata : PyDict)
    (now : PyDateTime) (hmax : 1 ≤ max_session_memories) :
    (add_conversation max_session_memories is_initialized session_memories
      user_message assistant_response metadata now).2 = true ∧
    (add_conversation max_session_memories is_initialized session_memories
      user_message assistant_response metadata now).1.length ≤ max_session_memories ∧
    (add_conversation max_session_memories is_initialized session_memories
      user_message assistant_response metadata now).1 =
      lastN max_session_memories (session_memories ++
        [add_conversation_entry user_message assistant_response metadata now]) ∧
    (add_conversation max_session_memories is_initialized session_memories
      user_message assistant_response metadata now).1.getLast? =
      some (add_conversation_entry user_message assistant_response metadata now) := by
  have hunfold : (add_conversation max_session_memories is_initialized session_memories
      user_message assistant_response metadata now).1 =
      if max_session_memories < (session_memories ++
          [add_conversation_entry user_message assistant_response metadata now]).length
      then lastN max_session_memories (session_memories ++
        [add_conversation_entry user_message assistant_response metadata now])
      else session_memories ++
        [add_conversation_entry user_message assistant_response metadata now] := by
    cases is_initialized <;> rfl
  have hres : (add_conversation max_session_memories is_initialized session_memories
      user_message assistant_response metadata now).1 =
      lastN max_session_memories (session_memories ++
        [add_conversation_entry user_message assistant_response metadata now]) := by
    rw [hunfold]
    split
    · rfl
    · next hlen => exact (lastN_of_length_le _ _ (Nat.le_of_not_lt hlen)).symm
  have h2 : (add_conversation max_session_memories is_initialized session_memories
      user_message assistant_response metadata now).2 = true := by
    cases is_initialized <;> rfl
  refine ⟨h2, ?_, hres, ?_⟩
  · rw [hres, length_lastN]
    exact min_le_right _ _
  · rw [hres, getLast?_lastN _ _ hmax (by simp)]
    exact List.getLast?_concat _

/-- Witness for C4 at concrete inputs: with a bound of 2 and a full buffer,
adding a turn drops the oldest entry and appends the new one. -/
theorem add_conversation_rolling_buffer_witness :
    (add_conversation 2 false
      [add_conversation_entry "a" "b" [] ⟨0⟩, add_conversation_entry "c" "d" [] ⟨1⟩]
      "e" "f" [] ⟨2⟩).2 = true ∧
    (add_conversation 2 false
      [add_conversation_entry "a" "b" [] ⟨0⟩, add_conversation_entry "c" "d" [] ⟨1⟩]
      "e" "f" [] ⟨2⟩).1.length ≤ 2 ∧
    (add_conversation 2 false
      [add_conversation_entry "a" "b" [] ⟨0⟩, add_conversation_entry "c" "d" [] ⟨1⟩]
      "e" "f" [] ⟨2⟩).1 =
      lastN 2 ([add_conversation_entry "a" "b" [] ⟨0⟩, add_conversation_entry "c" "d" [] ⟨1⟩] ++
        [add_conversation_entry "e" "f" [] ⟨2⟩]) ∧
    (add_conversation 2 false
      [add_conversation_entry "a" "b" [] ⟨0⟩, add_conversation_entry "c" "d" [] ⟨1⟩]
      "e" "f" [] ⟨2⟩).1.getLast? = some (add_conversation_entry "e" "f" [] ⟨2⟩) :=
  add_conversation_rolling_buffer 2 false
    [add_conversation_entry "a" "b" [] ⟨0⟩, add_conversation_entry "c" "d" [] ⟨1⟩]
    "e" "f" [] ⟨2⟩ (by decide)

/-- C3: whenever the long-term store is uninitialized or its search raises,
`search_memories` degrades to the session-memory keyword search: the returned
`MemorySearchResult` carries exactly the session-search entries, the input
query, and a `total_count` equal to the number of returned entries. -/
theorem search_memories_fallback (is_initialized : Bool)
    (lt_search : Except Unit Mem0SearchRaw)
    (session_memories : List ConversationEntry) (user_id query : String)
    (limit : Nat) (now : PyDateTime) (search_time : ℚ)
    (h : is_initialized = false ∨ lt_search = .error ()) :
    search_memories is_initialized lt_search session_memories user_id query
      limit now search_time =
      { entries := search_session_memories session_memories user_id query limit now
        query := query
        total_count :=
          (search_session_memories session_memories user_id query limit now).length
        search_time := search_time } := by
  rcases h with h | h
  · subst h; rfl
  · subst h; cases is_initialized <;> rfl

/-- Witness for C3 at concrete inputs: with the store uninitialized, the
result is the session keyword search for the query. -/
theorem search_memories_fallback_witness :
    search_memories false (.ok { results := none })
      [add_conversation_entry "hi" "yo" [] ⟨0⟩] "u" "hi" 5 ⟨1⟩ 0 =
      { entries := search_session_memories
          [add_conversation_entry "hi" "yo" [] ⟨0⟩] "u" "hi" 5 ⟨1⟩
        query := "hi"
        total_count := (search_session_memories
          [add_conversation_entry "hi" "yo" [] ⟨0⟩] "u" "hi" 5 ⟨1⟩).length
        search_time := 0 } :=
  search_memories_fallback false (.ok { results := none })
    [add_conversation_entry "hi" "yo" [] ⟨0⟩] "u" "hi" 5 ⟨1⟩ 0 (Or.inl rfl)

/-- C1 (counterexample to the claim as stated): when the service is
initialized and the OpenRouter call completes with a non-200 status — the
"returns an error" case — the provider helper returns `None` and
`generate_response` passes that `None` through to the caller instead of a
fallback string. -/
theorem generate_response_error_return_counterexample :
    generate_response true "openrouter" "sys" []
      (.ok (generate_openrouter_response { status_code := 429, content := "" }))
      "hello" 0 = none := by decide

/-- C1 (amended): when the service is not initialized, or the selected
provider's call raises an exception, `generate_response` returns the
keyword-scan fallback response (a non-`None` string) instead of propagating
the error. -/
theorem generate_response_fallback (is_initialized : Bool)
    (current_provider : String) (system_prompt : String)
    (conversation_history : List ConversationEntry)
    (call : Except Unit (Option String)) (user_message : String) (pick : Nat)
    (h : is_initialized = false ∨
      ((current_provider = "openai" ∨ current_provider = "openrouter" ∨
        current_provider = "ollama") ∧ call = .error ())) :
    generate_response is_initialized current_provider system_prompt
      conversation_history call user_message pick =
      some (fallback_response user_message pick) := by
  rcases h with h | ⟨hp, hc⟩
  · subst h; rfl
  · subst hc
    cases is_initialized
    · rfl
    · rcases hp with hp | hp | hp <;> subst hp <;> rfl

/-- Witness for C1 (amended) at concrete inputs: with the service
uninitialized the fallback string is returned. -/
theorem generate_response_fallback_witness :
    generate_response false "openai" "sys" [] (.ok (some "ok")) "hello" 2 =
      some (fallback_response "hello" 2) :=
  generate_response_fallback false "openai" "sys" [] (.ok (some "ok"))
    "hello" 2 (Or.inl rfl)

/-- The `SentimentType` enum lookup inverts `.value`. -/
theorem sentiment_ofValue_value (s : SentimentType) :
    SentimentType.ofValue s.value = some s := by
  cases s <;> rfl

/-- C10: for any `datetime` codec satisfying the stdlib contract
`fromisoformat (isoformat d) = d`, deserializing the serialized dict of a
`ConversationEntry` restores the entry exactly — every field round-trips. -/
theorem conversation_entry_roundtrip (iso : PyDateTime → String)
    (fromiso : String → Option PyDateTime)
    (hinv : ∀ d, fromiso (iso d) = some d) (e : ConversationEntry) :
    ConversationEntry.from_dict fromiso (ConversationEntry.to_dict iso e) =
      some e := by
  cases e with
  | mk um ar s t md =>
    simp [ConversationEntry.to_dict, ConversationEntry.from_dict,
      sentiment_ofValue_value, hinv]

/-- A concrete codec satisfying the `isoformat`/`fromisoformat` round-trip
contract, used only to instantiate the round-trip theorem at closed input. -/
def demo_isoformat (d : PyDateTime) : String :=
  String.mk (List.replicate d.tick 'x')

/-- Inverse of `demo_isoformat`. -/
def demo_fromisoformat (s : String) : Option PyDateTime := some ⟨s.length⟩

/-- Witness for C10 at concrete inputs. -/
theorem conversation_entry_roundtrip_witness :
    ConversationEntry.from_dict demo_fromisoformat
      (ConversationEntry.to_dict demo_isoformat
        { user_message := "hi", assistant_response := "there",
          sentiment := .POSITIVE, timestamp := ⟨3⟩, metadata := [("k", "v")] }) =
      some { user_message := "hi", assistant_response := "there",
             sentiment := .POSITIVE, timestamp := ⟨3⟩, metadata := [("k", "v")] } :=
  conversation_entry_roundtrip demo_isoformat demo_fromisoformat
    (fun d => by cases d; simp [demo_isoformat, demo_fromisoformat, String.length])
    { user_message := "hi", assistant_response := "there",
      sentiment := .POSITIVE, timestamp := ⟨3⟩, metadata := [("k", "v")] }

end TerminalCompanion

